import Mathlib

/-!
Verification of the cost-tracking callback handler
(src/telemetry_demo/callback_handler_patch.py).

The development shallowly embeds the Python module: Python runtime values
become the inductive `Value`, Python exceptions become the `Except Unit`
monad `PyM`, and the cost parser `_parse_cost_from_llm_result` becomes the
function `parse_cost_from_llm_result` built from the scan functions below,
each translated line by line from the source.
-/

namespace TelemetryDemo

/-- A Python runtime value as seen by the cost parser: `vnull` is `None`,
`vdict` is a `dict` (association list, first binding wins), and `vobj` is a
generic object carrying named attributes. -/
inductive Value where
  | vnull : Value
  | vbool : Bool → Value
  | vnum : Rat → Value
  | vstr : String → Value
  | vdict : List (String × Value) → Value
  | vobj : List (String × Value) → Value
deriving Repr

/-- Python exception monad: `.error ()` is a raised exception. -/
abbrev PyM := Except Unit

/-- Substring test, used for the Python expression `key in someString`. -/
def strContains (s pat : String) : Bool :=
  (s.splitOn pat).length != 1

/-- Python truthiness of a `Value` (`bool(v)`). -/
def Value.truthy : Value → Bool
  | .vnull => false
  | .vbool b => b
  | .vnum q => !(q == 0)
  | .vstr s => !(s == "")
  | .vdict l => !l.isEmpty
  | .vobj _ => true

/-- The Python expression `k in v`: key membership for a dict, substring
test for a string, a `TypeError` for anything else. -/
def Value.mem (k : String) : Value → PyM Bool
  | .vdict l => .ok (List.lookup k l).isSome
  | .vstr s => .ok (strContains s k)
  | _ => .error ()

/-- The Python expression `v[k]`: dict indexing; `KeyError` when the key is
missing, `TypeError` on any non-dict. -/
def Value.index (v : Value) (k : String) : PyM Value :=
  match v with
  | .vdict l =>
    match List.lookup k l with
    | some x => .ok x
    | none => .error ()
  | _ => .error ()

/-- The Python expression `v.get(k, d)`: defaulting dict lookup;
`AttributeError` on any non-dict. -/
def Value.get (v : Value) (k : String) (d : Value) : PyM Value :=
  match v with
  | .vdict l => .ok ((List.lookup k l).getD d)
  | _ => .error ()

/-- The Python expression `hasattr(v, a)`: only modelled objects carry
attributes. -/
def Value.hasAttr (v : Value) (a : String) : Bool :=
  match v with
  | .vobj l => (List.lookup a l).isSome
  | _ => false

/-- The Python expression `getattr(v, a)` under a `hasAttr` guard. -/
def Value.getAttr (v : Value) (a : String) : Value :=
  match v with
  | .vobj l => (List.lookup a l).getD .vnull
  | _ => .vnull

/-- The Python check `isinstance(v, (int, float))`; a Python `bool` is a
subclass of `int`, so it also passes. -/
def Value.isNumber : Value → Bool
  | .vnum _ => true
  | .vbool _ => true
  | _ => false

/-- The Python comparison `v > 0` on a value that passed `isNumber`
(`True > 0` holds in Python). -/
def Value.gtZero : Value → Bool
  | .vnum q => decide (0 < q)
  | .vbool b => b
  | _ => false

/-- The dict returned by `_parse_cost_from_llm_result`: `input` and
`output` keys are present only on the dict-format paths, `total` is always
present. -/
structure CostRec where
  input : Option Value
  output : Option Value
  total : Value
deriving Repr

/-- One LangChain generation entry as probed by the parser: `none` fields
model a missing attribute (`hasattr` is false). -/
structure Gen where
  message : Option Value
  generation_info : Option Value
deriving Repr

/-- A LangChain `LLMResult` as probed by the parser: `llm_output` is any
value (or a missing attribute), `generations` is the list of lists of
generation entries (or a missing attribute). -/
structure Response where
  llm_output : Option Value
  generations : Option (List (List Gen))
deriving Repr

/-- Method 1, body of the loop `for usage_key in ["usage", "token_usage"]`
(source lines 58-77): dict format returns the full breakdown, object
format returns only the total. -/
def scanTopKey (lo : Value) (k : String) : PyM (Option CostRec) :=
  match Value.mem k lo with
  | .error e => .error e
  | .ok false => .ok none
  | .ok true =>
    match lo.index k with
    | .error e => .error e
    | .ok (.vdict u) =>
      match List.lookup "cost" u with
      | none => .ok none
      | some cost =>
        if cost.isNumber && cost.gtZero then
          match ((List.lookup "cost_details" u).getD (.vdict [])).get
              "upstream_inference_prompt_cost" (.vnum 0) with
          | .error e => .error e
          | .ok inp =>
            match ((List.lookup "cost_details" u).getD (.vdict [])).get
                "upstream_inference_completions_cost" (.vnum 0) with
            | .error e => .error e
            | .ok outp => .ok (some ⟨some inp, some outp, cost⟩)
        else .ok none
    | .ok ud =>
      if ud.hasAttr "cost" then
        if (ud.getAttr "cost").isNumber && (ud.getAttr "cost").gtZero then
          .ok (some ⟨none, none, ud.getAttr "cost"⟩)
        else .ok none
      else .ok none

/-- Method 1, the `usage` then `token_usage` loop over `llm_output`
(source lines 58-77). -/
def scanTop (lo : Value) : PyM (Option CostRec) :=
  match scanTopKey lo "usage" with
  | .error e => .error e
  | .ok (some r) => .ok (some r)
  | .ok none => scanTopKey lo "token_usage"

/-- Method 2, per-entry message check (source lines 84-98): probe
`generation.message.response_metadata` for a `usage` or `token_usage`
block with a positive numeric cost. -/
def scanGenMessage (g : Gen) : PyM (Option CostRec) :=
  match g.message with
  | none => .ok none
  | some msg =>
    if msg.hasAttr "response_metadata" then
      match (if (msg.getAttr "response_metadata").truthy
          then msg.getAttr "response_metadata" else .vdict []).get "usage" .vnull with
      | .error e => .error e
      | .ok u1 =>
        match (if u1.truthy then .ok u1 else
          match (if (msg.getAttr "response_metadata").truthy
              then msg.getAttr "response_metadata" else .vdict []).get
              "token_usage" .vnull with
          | .error e => .error e
          | .ok u2 => .ok (if u2.truthy then u2 else .vdict []) : PyM Value) with
        | .error e => .error e
        | .ok usage =>
          match Value.mem "cost" usage with
          | .error e => .error e
          | .ok false => .ok none
          | .ok true =>
            match usage.index "cost" with
            | .error e => .error e
            | .ok cost =>
              if cost.isNumber && cost.gtZero then
                match usage.get "cost_details" (.vdict []) with
                | .error e => .error e
                | .ok cd =>
                  match cd.get "upstream_inference_prompt_cost" (.vnum 0) with
                  | .error e => .error e
                  | .ok inp =>
                    match cd.get "upstream_inference_completions_cost" (.vnum 0) with
                    | .error e => .error e
                    | .ok outp => .ok (some ⟨some inp, some outp, cost⟩)
              else .ok none
    else .ok none

/-- Method 3, per-entry `generation_info` check (source lines 101-112):
probe `generation.generation_info["usage_metadata"]` for a positive
numeric cost, in dict or object format; either format returns only the
total. -/
def scanGenInfo (g : Gen) : PyM (Option CostRec) :=
  match g.generation_info with
  | none => .ok none
  | some gi =>
    if gi.truthy then
      match Value.mem "usage_metadata" gi with
      | .error e => .error e
      | .ok false => .ok none
      | .ok true =>
        match gi.index "usage_metadata" with
        | .error e => .error e
        | .ok (.vdict u) =>
          match List.lookup "cost" u with
          | none => .ok none
          | some cost =>
            if cost.isNumber && cost.gtZero then .ok (some ⟨none, none, cost⟩)
            else .ok none
        | .ok um =>
          if um.hasAttr "cost" then
            if (um.getAttr "cost").isNumber && (um.getAttr "cost").gtZero then
              .ok (some ⟨none, none, um.getAttr "cost"⟩)
            else .ok none
          else .ok none
    else .ok none

/-- One iteration of the generation loop (source lines 82-112): the
message-level check runs before the generation-info check of the same
entry. -/
def scanGen (g : Gen) : PyM (Option CostRec) :=
  match scanGenMessage g with
  | .error e => .error e
  | .ok (some r) => .ok (some r)
  | .ok none => scanGenInfo g

/-- The inner loop `for generation in generation_list` with its early
returns. -/
def scanGenList : List Gen → PyM (Option CostRec)
  | [] => .ok none
  | g :: t =>
    match scanGen g with
    | .error e => .error e
    | .ok (some r) => .ok (some r)
    | .ok none => scanGenList t

/-- The outer loop `for generation_list in response.generations`. -/
def scanGenLists : List (List Gen) → PyM (Option CostRec)
  | [] => .ok none
  | l :: t =>
    match scanGenList l with
    | .error e => .error e
    | .ok (some r) => .ok (some r)
    | .ok none => scanGenLists t

/-- Method 1 with its guard `hasattr(response, "llm_output") and
response.llm_output` (source line 57). -/
def topScan (r : Response) : PyM (Option CostRec) :=
  match r.llm_output with
  | some lo => if lo.truthy then scanTop lo else .ok none
  | none => .ok none

/-- The whole `try` body of `_parse_cost_from_llm_result` (source lines
56-114). -/
def parseBody (r : Response) : PyM (Option CostRec) :=
  match topScan r with
  | .error e => .error e
  | .ok (some rec) => .ok (some rec)
  | .ok none =>
    match r.generations with
    | some gl => if gl.isEmpty then .ok none else scanGenLists gl
    | none => .ok none

/-- `_parse_cost_from_llm_result` (source lines 42-120): the `except`
clause turns any exception into `None` and performs the warn-once logging
guarded by `self._cost_parse_warning_logged`. The result triple is
(returned value, flag after the call, whether this call logged). -/
def parse_cost_from_llm_result (flag : Bool) (r : Response) :
    Option CostRec × Bool × Bool :=
  match parseBody r with
  | .ok x => (x, flag, false)
  | .error _ => (none, true, !flag)

/-- The value `_parse_cost_from_llm_result` hands to its caller, ignoring
the logging state. -/
def parseCost (r : Response) : Option CostRec :=
  match parseBody r with
  | .ok x => x
  | .error _ => none

/-- Number of warnings emitted by a sequence of parser calls on one
handler instance whose warn-once flag starts as `flag`. -/
def countLogs (flag : Bool) : List Response → Nat
  | [] => 0
  | r :: rs =>
    let p := parse_cost_from_llm_result flag r
    (if p.2.2 then 1 else 0) + countLogs p.2.1 rs

/-- Modelled from the spec: no metadata extraction code exists under src;
spec section 4.1 step 2 draws metadata from the top-level usage/token-usage
block only. This selects that block: the usage entry of llm_output when it
is a dict, else the token-usage entry when it is a dict. -/
def topUsageDict (r : Response) : Option (List (String × Value)) :=
  match r.llm_output with
  | some (.vdict d) =>
    match List.lookup "usage" d with
    | some (.vdict u) => some u
    | _ =>
      match List.lookup "token_usage" d with
      | some (.vdict u) => some u
      | _ => none
  | _ => none

/-- Modelled from the spec: a known field is included under its namespaced
key only if present and non-null in the source block. -/
def nonNullField (u : List (String × Value)) (k : String) : Option Value :=
  match List.lookup k u with
  | some .vnull => none
  | some v => some v
  | none => none

/-- Modelled from the spec: the normalized MetadataRecord; each field is
the value stored under the corresponding namespaced (provider-prefixed)
key, or none when that key is omitted. -/
structure MetadataRecord where
  openrouter_is_byok : Option Value
  openrouter_system_fingerprint : Option Value
  openrouter_service_tier : Option Value
  openrouter_id : Option Value
deriving Repr

/-- Number of namespaced keys present in a MetadataRecord. -/
def MetadataRecord.keyCount (m : MetadataRecord) : Nat :=
  (if m.openrouter_is_byok.isSome then 1 else 0) +
  (if m.openrouter_system_fingerprint.isSome then 1 else 0) +
  (if m.openrouter_service_tier.isSome then 1 else 0) +
  (if m.openrouter_id.isSome then 1 else 0)

/-- Modelled from the spec: the metadata half of the Parser contract.
The is-byok flag is included whenever present (any type, including false);
the three other known fields only when present and non-null; only the
top-level block contributes. -/
def parse_metadata (r : Response) : MetadataRecord :=
  match topUsageDict r with
  | none => ⟨none, none, none, none⟩
  | some u =>
    ⟨List.lookup "is_byok" u,
     nonNullField u "system_fingerprint",
     nonNullField u "service_tier",
     nonNullField u "id"⟩

/-- The update applied by the error hook (source lines 202-207). -/
structure ErrUpdate where
  status_message : String
  level : String
  input : Option Value
  cost_details : CostRec
deriving Repr

/-- Final state of the observation touched by the error hook. -/
structure ErrState where
  update : Option ErrUpdate
  ended : Bool
deriving Repr

/-- Fault injection for the SDK calls made inside on_llm_error: each flag
makes the corresponding call raise; detachSome states whether the detach
call finds an observation for the run id. -/
structure ErrWorld where
  logThrows : Bool
  detachThrows : Bool
  detachSome : Bool
  updateThrows : Bool
  endThrows : Bool

/-- The try body of on_llm_error (source lines 196-207): log the debug
event, detach the observation, and when one exists update it with the
stringified error, ERROR level, and the zeroed cost record, then end it.
An exception at any point escapes the body carrying the state reached. -/
def on_llm_error_body (w : ErrWorld) (errStr : String) (inputs : Option Value) :
    Except ErrState ErrState :=
  if w.logThrows then .error ⟨none, false⟩
  else if w.detachThrows then .error ⟨none, false⟩
  else if w.detachSome then
    if w.updateThrows then .error ⟨none, false⟩
    else if w.endThrows then
      .error ⟨some ⟨errStr, "ERROR", inputs, ⟨some (.vnum 0), some (.vnum 0), .vnum 0⟩⟩, false⟩
    else .ok ⟨some ⟨errStr, "ERROR", inputs, ⟨some (.vnum 0), some (.vnum 0), .vnum 0⟩⟩, true⟩
  else .ok ⟨none, false⟩

/-- on_llm_error (source lines 183-210): the except clause catches every
exception, so the first component (raised to caller) is always false. -/
def on_llm_error (w : ErrWorld) (errStr : String) (inputs : Option Value) :
    Bool × ErrState :=
  match on_llm_error_body w errStr inputs with
  | .ok s => (false, s)
  | .error s => (false, s)

/-- The world where every SDK call succeeds and the observation exists. -/
def noFaultErrWorld : ErrWorld := ⟨false, false, true, false, false⟩

/-- The update applied by the success hook; only the cost-details slot is
tracked here. -/
structure EndUpdate where
  cost_details : Option CostRec
deriving Repr

/-- Interceptor state across one on_llm_end call. The pending field is
Modelled from the spec: the pending-response stash of spec sections 3 and
4.2 has no counterpart in the src version of the handler, which reads the
response argument directly; the spec requires it stashed at hook entry and
cleared on exit. The memo field is the updated_completion_start_time_memo
of the source. -/
structure EndState where
  pending : Option Response
  memo : List String
  update : Option EndUpdate
  ended : Bool
deriving Repr

/-- Fault injection for the calls made inside on_llm_end. -/
structure EndWorld where
  logThrows : Bool
  convertThrows : Bool
  usageThrows : Bool
  modelThrows : Bool
  detachThrows : Bool
  detachSome : Bool
  updateThrows : Bool
  endThrows : Bool

/-- The expression response.generations[-1][-1] (source line 142): raises
when the attribute is missing or either list is empty. -/
def lastGen (r : Response) : Option Gen :=
  (r.generations.bind List.getLast?).bind List.getLast?

/-- The try body of on_llm_end (source lines 136-173): log, extract the
last generation, convert the message, parse usage and model, parse cost
(which never raises but may flip the warn-once flag), detach, and when an
observation exists update it and end it. An exception at any point escapes
carrying the state and flag reached. -/
def on_llm_end_body (w : EndWorld) (resp : Response) (flag : Bool) (s : EndState) :
    Except (EndState × Bool) (EndState × Bool) :=
  if w.logThrows then .error (s, flag)
  else match lastGen resp with
  | none => .error (s, flag)
  | some _ =>
    if w.convertThrows then .error (s, flag)
    else if w.usageThrows then .error (s, flag)
    else if w.modelThrows then .error (s, flag)
    else if w.detachThrows then .error (s, (parse_cost_from_llm_result flag resp).2.1)
    else if w.detachSome then
      if w.updateThrows then .error (s, (parse_cost_from_llm_result flag resp).2.1)
      else if w.endThrows then
        .error ({ s with update := some ⟨(parse_cost_from_llm_result flag resp).1⟩ },
                (parse_cost_from_llm_result flag resp).2.1)
      else
        .ok ({ s with update := some ⟨(parse_cost_from_llm_result flag resp).1⟩, ended := true }, (parse_cost_from_llm_result flag resp).2.1)
    else .ok (s, (parse_cost_from_llm_result flag resp).2.1)

/-- on_llm_end (source lines 122-181): stash the response at entry
(Modelled from the spec: see EndState.pending), run the body, catch any
exception, and in the finally block discard the run id from the memo and
clear the stash. First component: raised to caller. -/
def on_llm_end (w : EndWorld) (resp : Response) (runId : String) (flag : Bool)
    (s0 : EndState) : Bool × EndState × Bool :=
  match on_llm_end_body w resp flag { s0 with pending := some resp } with
  | .ok (s, f) => (false, { s with pending := none, memo := s.memo.erase runId }, f)
  | .error (s, f) => (false, { s with pending := none, memo := s.memo.erase runId }, f)

/-- Concrete top-level usage block of the C1 witness, matching the spec
example with cost 5 and breakdown 2 and 3. -/
def c1usage : List (String × Value) :=
  [("cost", .vnum 5),
   ("cost_details", .vdict [("upstream_inference_prompt_cost", .vnum 2),
                            ("upstream_inference_completions_cost", .vnum 3)])]

/-- Concrete response of the C2 witness: top-level usage with cost 5 and
no breakdown. -/
def c2resp : Response := ⟨some (.vdict [("usage", .vdict [("cost", .vnum 5)])]), none⟩

/-- Generation entry of the C3 witness: message metadata carrying only a
token-usage block with cost 2. -/
def c3gen : Gen :=
  ⟨some (.vobj [("response_metadata",
      .vdict [("token_usage", .vdict [("cost", .vnum 2)])])]), none⟩

/-- Response of the C3 witness: no top-level block, one generation. -/
def c3resp : Response := ⟨none, some [[c3gen]]⟩

/-- Counterexample response for C4: the first generation entry carries a
generation-info cost 2 and the second entry carries a message-level cost 3. -/
def c4resp : Response :=
  ⟨none, some [[⟨none, some (.vdict [("usage_metadata", .vdict [("cost", .vnum 2)])])⟩,
    ⟨some (.vobj [("response_metadata",
        .vdict [("usage", .vdict [("cost", .vnum 3)])])]), none⟩]]⟩

/-- Witness response for the amended C4: a single generation entry whose
message metadata carries cost 3 and whose generation info carries cost 2. -/
def c4amResp : Response :=
  ⟨none, some [[⟨some (.vobj [("response_metadata",
      .vdict [("usage", .vdict [("cost", .vnum 3)])])]),
    some (.vdict [("usage_metadata", .vdict [("cost", .vnum 2)])])⟩]]⟩

/-- Generation entry of the C5 witness: only generation info carries a
usage-metadata block with cost 4. -/
def c5gen : Gen := ⟨none, some (.vdict [("usage_metadata", .vdict [("cost", .vnum 4)])])⟩

/-- Response of the C5 witness. -/
def c5resp : Response := ⟨none, some [[c5gen]]⟩

/-- Response of the C6 witness, matching the spec example: token-usage
block with is-byok false and a system fingerprint, no service tier or id. -/
def c6resp : Response :=
  ⟨some (.vdict [("token_usage", .vdict [("is_byok", .vbool false),
      ("system_fingerprint", .vstr "fp_abc")])]), none⟩

/-- Malformed response of the C7 witness: the message attribute
response_metadata is the integer 1, so the inner get call raises. -/
def c7bad : Response :=
  ⟨none, some [[⟨some (.vobj [("response_metadata", .vnum 1)]), none⟩]]⟩

/-- Usage object of the C10 witness: object format carrying a cost
attribute and a cost-details attribute that the object path ignores. -/
def c10attrs : List (String × Value) :=
  [("cost", .vnum 7),
   ("cost_details", .vdict [("upstream_inference_prompt_cost", .vnum 3),
                            ("upstream_inference_completions_cost", .vnum 4)])]

/-- Every record returned by the top-level per-key scan has a total that passed the numeric and positivity guards. -/
theorem scanTopKey_pos {lo : Value} {k : String} {rec : CostRec}
    (h : scanTopKey lo k = .ok (some rec)) :
    rec.total.isNumber = true ∧ rec.total.gtZero = true := by
  unfold scanTopKey at h
  iterate 12 (all_goals try split at h)
  all_goals try (simp only [Except.ok.injEq, Option.some.injEq] at h; subst h)
  all_goals simp_all

theorem scanTop_pos {lo : Value} {rec : CostRec}
    (h : scanTop lo = .ok (some rec)) :
    rec.total.isNumber = true ∧ rec.total.gtZero = true := by
  unfold scanTop at h
  split at h
  · simp at h
  · rename_i r heq
    simp only [Except.ok.injEq, Option.some.injEq] at h
    subst h
    exact scanTopKey_pos heq
  · exact scanTopKey_pos h

theorem scanGenMessage_pos {g : Gen} {rec : CostRec}
    (h : scanGenMessage g = .ok (some rec)) :
    rec.total.isNumber = true ∧ rec.total.gtZero = true := by
  unfold scanGenMessage at h
  iterate 12 (all_goals try split at h)
  all_goals try (simp only [Except.ok.injEq, Option.some.injEq] at h; subst h)
  all_goals simp_all

theorem scanGenInfo_pos {g : Gen} {rec : CostRec}
    (h : scanGenInfo g = .ok (some rec)) :
    rec.total.isNumber = true ∧ rec.total.gtZero = true := by
  unfold scanGenInfo at h
  iterate 12 (all_goals try split at h)
  all_goals try (simp only [Except.ok.injEq, Option.some.injEq] at h; subst h)
  all_goals simp_all

theorem scanGen_pos {g : Gen} {rec : CostRec}
    (h : scanGen g = .ok (some rec)) :
    rec.total.isNumber = true ∧ rec.total.gtZero = true := by
  unfold scanGen at h
  split at h
  · simp at h
  · rename_i r heq
    simp only [Except.ok.injEq, Option.some.injEq] at h
    subst h
    exact scanGenMessage_pos heq
  · exact scanGenInfo_pos h

theorem scanGenList_pos {l : List Gen} {rec : CostRec}
    (h : scanGenList l = .ok (some rec)) :
    rec.total.isNumber = true ∧ rec.total.gtZero = true := by
  induction l with
  | nil => simp [scanGenList] at h
  | cons g t ih =>
    unfold scanGenList at h
    split at h
    · simp at h
    · rename_i r heq
      simp only [Except.ok.injEq, Option.some.injEq] at h
      subst h
      exact scanGen_pos heq
    · exact ih h

theorem scanGenLists_pos {ll : List (List Gen)} {rec : CostRec}
    (h : scanGenLists ll = .ok (some rec)) :
    rec.total.isNumber = true ∧ rec.total.gtZero = true := by
  induction ll with
  | nil => simp [scanGenLists] at h
  | cons l t ih =>
    unfold scanGenLists at h
    split at h
    · simp at h
    · rename_i r heq
      simp only [Except.ok.injEq, Option.some.injEq] at h
      subst h
      exact scanGenList_pos heq
    · exact ih h

theorem topScan_pos {r : Response} {rec : CostRec}
    (h : topScan r = .ok (some rec)) :
    rec.total.isNumber = true ∧ rec.total.gtZero = true := by
  unfold topScan at h
  split at h
  · split at h
    · exact scanTop_pos h
    · simp at h
  · simp at h

theorem parseBody_pos {r : Response} {rec : CostRec}
    (h : parseBody r = .ok (some rec)) :
    rec.total.isNumber = true ∧ rec.total.gtZero = true := by
  unfold parseBody at h
  split at h
  · simp at h
  · rename_i r' heq
    simp only [Except.ok.injEq, Option.some.injEq] at h
    subst h
    exact topScan_pos heq
  · split at h
    · split at h
      · simp at h
      · exact scanGenLists_pos h
    · simp at h

theorem parseBody_of_parseCost {r : Response} {rec : CostRec}
    (h : parseCost r = some rec) : parseBody r = .ok (some rec) := by
  unfold parseCost at h
  split at h
  · rename_i x heq
    rw [h] at heq
    exact heq
  · simp at h

/-- Claim C2: the Parser returns a cost record only when the cost value found is numeric (a Python int, float or bool, since bool is a subclass of int) and strictly greater than 0, so a returned record never has a total equal to 0. -/
theorem claim_C2 {r : Response} {rec : CostRec} (h : parseCost r = some rec) :
    rec.total.isNumber = true ∧ rec.total.gtZero = true ∧ rec.total ≠ .vnum 0 := by
  have hp := parseBody_pos (parseBody_of_parseCost h)
  refine ⟨hp.1, hp.2, ?_⟩
  intro hz
  rw [hz] at hp
  have : (Value.vnum 0).gtZero = false := by
    simp [Value.gtZero]
  rw [this] at hp
  exact absurd hp.2 (by simp)

theorem claim_C2_witness :
    parseCost c2resp = some ⟨some (.vnum 0), some (.vnum 0), .vnum 5⟩ ∧
    ((Value.vnum 5).isNumber = true ∧ (Value.vnum 5).gtZero = true ∧
      Value.vnum 5 ≠ Value.vnum 0) :=
  ⟨rfl, claim_C2 (r := c2resp) rfl⟩

theorem truthy_of_lookup {d : List (String × Value)} {k : String} {v : Value}
    (h : List.lookup k d = some v) : (Value.vdict d).truthy = true := by
  cases d with
  | nil => simp at h
  | cons hd tl => simp [Value.truthy]

theorem scanTop_usage_hit {lo : Value} {rec : CostRec}
    (h : scanTopKey lo "usage" = .ok (some rec)) : scanTop lo = .ok (some rec) := by
  unfold scanTop
  simp [h]

theorem scanTop_token_hit {lo : Value} {rec : CostRec}
    (h0 : scanTopKey lo "usage" = .ok none)
    (h : scanTopKey lo "token_usage" = .ok (some rec)) : scanTop lo = .ok (some rec) := by
  unfold scanTop
  simp [h0, h]

theorem parseCost_top_hit {lo : Value} {gens : Option (List (List Gen))} {rec : CostRec}
    (ht : lo.truthy = true) (h : scanTop lo = .ok (some rec)) :
    parseCost ⟨some lo, gens⟩ = some rec := by
  unfold parseCost parseBody topScan
  simp [ht, h]

theorem scanTopKey_dict_hit {d u cd : List (String × Value)} {c : Value} {k : String}
    (hk : List.lookup k d = some (.vdict u))
    (hc : List.lookup "cost" u = some c)
    (hnum : c.isNumber = true) (hpos : c.gtZero = true)
    (hcd : List.lookup "cost_details" u = some (.vdict cd) ∨
           (List.lookup "cost_details" u = none ∧ cd = [])) :
    scanTopKey (.vdict d) k =
      .ok (some ⟨some ((List.lookup "upstream_inference_prompt_cost" cd).getD (.vnum 0)),
                 some ((List.lookup "upstream_inference_completions_cost" cd).getD (.vnum 0)),
                 c⟩) := by
  rcases hcd with hcd | ⟨hcd, rfl⟩ <;>
    simp [scanTopKey, Value.mem, Value.index, Value.get, hk, hc, hnum, hpos, hcd]

theorem scanTopKey_obj_hit {d attrs : List (String × Value)} {c : Value} {k : String}
    (hk : List.lookup k d = some (.vobj attrs))
    (hc : List.lookup "cost" attrs = some c)
    (hnum : c.isNumber = true) (hpos : c.gtZero = true) :
    scanTopKey (.vdict d) k = .ok (some ⟨none, none, c⟩) := by
  simp [scanTopKey, Value.mem, Value.index, Value.hasAttr, Value.getAttr, hk, hc, hnum, hpos]

/-- Claim C1: for every response whose top-level llm_output carries a usage or token-usage dict with a numeric cost strictly greater than 0 (the usage key is probed first, so a token-usage hit is returned when the usage key yields nothing), the Parser returns a record with total equal to that cost, input equal to the upstream-inference-prompt-cost entry of cost_details and output equal to the upstream-inference-completions-cost entry, both defaulting to 0 when absent. -/
theorem claim_C1 (d u cd : List (String × Value)) (c : Value)
    (gens : Option (List (List Gen)))
    (hc : List.lookup "cost" u = some c)
    (hnum : c.isNumber = true) (hpos : c.gtZero = true)
    (hcd : List.lookup "cost_details" u = some (.vdict cd) ∨
           (List.lookup "cost_details" u = none ∧ cd = [])) :
    (List.lookup "usage" d = some (.vdict u) →
      parseCost ⟨some (.vdict d), gens⟩ =
        some ⟨some ((List.lookup "upstream_inference_prompt_cost" cd).getD (.vnum 0)),
              some ((List.lookup "upstream_inference_completions_cost" cd).getD (.vnum 0)),
              c⟩)
    ∧ (List.lookup "token_usage" d = some (.vdict u) →
       scanTopKey (.vdict d) "usage" = .ok none →
      parseCost ⟨some (.vdict d), gens⟩ =
        some ⟨some ((List.lookup "upstream_inference_prompt_cost" cd).getD (.vnum 0)),
              some ((List.lookup "upstream_inference_completions_cost" cd).getD (.vnum 0)),
              c⟩) := by
  constructor
  · intro hk
    exact parseCost_top_hit (truthy_of_lookup hk)
      (scanTop_usage_hit (scanTopKey_dict_hit hk hc hnum hpos hcd))
  · intro hk h0
    exact parseCost_top_hit (truthy_of_lookup hk)
      (scanTop_token_hit h0 (scanTopKey_dict_hit hk hc hnum hpos hcd))

theorem claim_C1_witness :
    List.lookup "cost" c1usage = some (.vnum 5) ∧
    (Value.vnum 5).isNumber = true ∧ (Value.vnum 5).gtZero = true ∧
    parseCost ⟨some (.vdict [("usage", .vdict c1usage)]), none⟩ =
      some ⟨some (.vnum 2), some (.vnum 3), .vnum 5⟩ :=
  ⟨rfl, rfl, by decide,
    (claim_C1 [("usage", .vdict c1usage)] c1usage
      [("upstream_inference_prompt_cost", .vnum 2),
       ("upstream_inference_completions_cost", .vnum 3)]
      (.vnum 5) none rfl rfl (by decide) (Or.inl rfl)).1 rfl⟩

/-- Claim C10: when the top-level usage or token-usage entry is not a dict but an object exposing a numeric cost attribute strictly greater than 0, the Parser returns a record with only the total set, with no input or output, even if the object also carries cost-details sub-fields. -/
theorem claim_C10 (d attrs : List (String × Value)) (c : Value)
    (gens : Option (List (List Gen)))
    (hc : List.lookup "cost" attrs = some c)
    (hnum : c.isNumber = true) (hpos : c.gtZero = true) :
    (List.lookup "usage" d = some (.vobj attrs) →
      parseCost ⟨some (.vdict d), gens⟩ = some ⟨none, none, c⟩)
    ∧ (List.lookup "token_usage" d = some (.vobj attrs) →
       scanTopKey (.vdict d) "usage" = .ok none →
      parseCost ⟨some (.vdict d), gens⟩ = some ⟨none, none, c⟩) := by
  constructor
  · intro hk
    exact parseCost_top_hit (truthy_of_lookup hk)
      (scanTop_usage_hit (scanTopKey_obj_hit hk hc hnum hpos))
  · intro hk h0
    exact parseCost_top_hit (truthy_of_lookup hk)
      (scanTop_token_hit h0 (scanTopKey_obj_hit hk hc hnum hpos))

theorem claim_C10_witness :
    List.lookup "cost" c10attrs = some (.vnum 7) ∧
    (Value.vnum 7).isNumber = true ∧ (Value.vnum 7).gtZero = true ∧
    parseCost ⟨some (.vdict [("usage", .vobj c10attrs)]), none⟩ =
      some ⟨none, none, .vnum 7⟩ :=
  ⟨rfl, rfl, by decide,
    (claim_C10 [("usage", .vobj c10attrs)] c10attrs (.vnum 7) none
      rfl rfl (by decide)).1 rfl⟩

theorem scanGen_message_hit {g : Gen} {rec : CostRec}
    (h : scanGenMessage g = .ok (some rec)) : scanGen g = .ok (some rec) := by
  unfold scanGen
  simp [h]

theorem scanGen_info_hit {g : Gen} {rec : CostRec}
    (h0 : scanGenMessage g = .ok none) (h : scanGenInfo g = .ok (some rec)) :
    scanGen g = .ok (some rec) := by
  unfold scanGen
  simp [h0, h]

theorem parseCost_gen_hit {r : Response} {g : Gen} {rest : List Gen}
    {more : List (List Gen)} {rec : CostRec}
    (htop : topScan r = .ok none)
    (hg : r.generations = some ((g :: rest) :: more))
    (hhit : scanGen g = .ok (some rec)) :
    parseCost r = some rec := by
  unfold parseCost parseBody
  simp [htop, hg, scanGenLists, scanGenList, hhit]

theorem scanGenMessage_dict_hit {g : Gen} {msg : Value}
    {m u cd : List (String × Value)} {c : Value}
    (hm : g.message = some msg)
    (hattr : msg.hasAttr "response_metadata" = true)
    (hmeta : msg.getAttr "response_metadata" = .vdict m)
    (hsel : List.lookup "usage" m = some (.vdict u) ∨
            (((List.lookup "usage" m).getD .vnull).truthy = false ∧
             List.lookup "token_usage" m = some (.vdict u)))
    (hc : List.lookup "cost" u = some c)
    (hnum : c.isNumber = true) (hpos : c.gtZero = true)
    (hcd : List.lookup "cost_details" u = some (.vdict cd) ∨
           (List.lookup "cost_details" u = none ∧ cd = [])) :
    scanGenMessage g =
      .ok (some ⟨some ((List.lookup "upstream_inference_prompt_cost" cd).getD (.vnum 0)),
                 some ((List.lookup "upstream_inference_completions_cost" cd).getD (.vnum 0)),
                 c⟩) := by
  have hu_t : (Value.vdict u).truthy = true := truthy_of_lookup hc
  have hm_t : (Value.vdict m).truthy = true := by
    rcases hsel with h | ⟨_, h⟩ <;> exact truthy_of_lookup h
  rcases hsel with husage | ⟨hfalse, htoken⟩
  · rcases hcd with hcd | ⟨hcd, rfl⟩ <;>
      simp [scanGenMessage, hm, hattr, hmeta, hm_t, hu_t, Value.get, Value.mem,
        Value.index, husage, hc, hnum, hpos, hcd]
  · rcases hcd with hcd | ⟨hcd, rfl⟩ <;>
      simp [scanGenMessage, hm, hattr, hmeta, hm_t, hu_t, Value.get, Value.mem,
        Value.index, hfalse, htoken, hc, hnum, hpos, hcd]

/-- Claim C3: when the top-level scan yields no cost and a generation entry has message response metadata whose selected usage block (the usage entry when truthy, else the token-usage entry) carries a numeric cost strictly greater than 0, the Parser returns that cost with the breakdown from that block, defaulting to 0; and whenever the top-level block yields a positive cost, the top-level record is the one returned. -/
theorem claim_C3 (r : Response) (g : Gen) (rest : List Gen) (more : List (List Gen))
    (msg : Value) (m u cd : List (String × Value)) (c : Value)
    (htop : topScan r = .ok none)
    (hg : r.generations = some ((g :: rest) :: more))
    (hm : g.message = some msg)
    (hattr : msg.hasAttr "response_metadata" = true)
    (hmeta : msg.getAttr "response_metadata" = .vdict m)
    (hc : List.lookup "cost" u = some c)
    (hnum : c.isNumber = true) (hpos : c.gtZero = true)
    (hcd : List.lookup "cost_details" u = some (.vdict cd) ∨
           (List.lookup "cost_details" u = none ∧ cd = [])) :
    (List.lookup "usage" m = some (.vdict u) →
      parseCost r =
        some ⟨some ((List.lookup "upstream_inference_prompt_cost" cd).getD (.vnum 0)),
              some ((List.lookup "upstream_inference_completions_cost" cd).getD (.vnum 0)),
              c⟩)
    ∧ (((List.lookup "usage" m).getD .vnull).truthy = false →
       List.lookup "token_usage" m = some (.vdict u) →
      parseCost r =
        some ⟨some ((List.lookup "upstream_inference_prompt_cost" cd).getD (.vnum 0)),
              some ((List.lookup "upstream_inference_completions_cost" cd).getD (.vnum 0)),
              c⟩)
    ∧ (∀ (r2 : Response) (rt : CostRec),
        topScan r2 = .ok (some rt) → parseCost r2 = some rt) := by
  refine ⟨?_, ?_, ?_⟩
  · intro husage
    exact parseCost_gen_hit htop hg (scanGen_message_hit
      (scanGenMessage_dict_hit hm hattr hmeta (Or.inl husage) hc hnum hpos hcd))
  · intro hfalse htoken
    exact parseCost_gen_hit htop hg (scanGen_message_hit
      (scanGenMessage_dict_hit hm hattr hmeta (Or.inr ⟨hfalse, htoken⟩) hc hnum hpos hcd))
  · intro r2 rt h
    unfold parseCost parseBody
    simp [h]

theorem claim_C3_witness :
    topScan c3resp = .ok none ∧
    ((List.lookup "usage" [("token_usage", Value.vdict [("cost", Value.vnum 2)])]).getD
        .vnull).truthy = false ∧
    parseCost c3resp = some ⟨some (.vnum 0), some (.vnum 0), .vnum 2⟩ :=
  ⟨rfl, rfl,
    (claim_C3 c3resp c3gen [] []
      (.vobj [("response_metadata",
        .vdict [("token_usage", .vdict [("cost", .vnum 2)])])])
      [("token_usage", .vdict [("cost", .vnum 2)])]
      [("cost", .vnum 2)] [] (.vnum 2)
      rfl rfl rfl rfl rfl rfl rfl (by decide)
      (Or.inr ⟨rfl, rfl⟩)).2.1 rfl rfl⟩

/-- Claim C4 (amended): when the top-level block yields no cost, the Parser scans the generation entries in order and, within each entry, consults the message-level response metadata before that same entry generation-info block; the first entry that yields a positive cost determines the result, so a message-level cost wins over generation-info only within the same entry, while an earlier entry generation-info cost takes precedence over a later entry message-level cost. -/
theorem claim_C4_amended (r : Response) (g : Gen) (rest : List Gen)
    (more : List (List Gen)) (rec : CostRec)
    (htop : topScan r = .ok none)
    (hg : r.generations = some ((g :: rest) :: more)) :
    (scanGenMessage g = .ok (some rec) → parseCost r = some rec)
    ∧ (scanGenMessage g = .ok none → scanGenInfo g = .ok (some rec) →
       parseCost r = some rec) := by
  constructor
  · intro h
    exact parseCost_gen_hit htop hg (scanGen_message_hit h)
  · intro h0 h
    exact parseCost_gen_hit htop hg (scanGen_info_hit h0 h)

/-- Claim C4 counterexample: with a generation-info cost 2 in the first entry and a message-level cost 3 in the second entry, the Parser returns total 2, not the message-level cost 3 claimed by the all-message-levels-first search order. -/
theorem claim_C4_counterexample :
    parseCost c4resp = some ⟨none, none, .vnum 2⟩ ∧
    (parseCost c4resp).map CostRec.total ≠ some (.vnum 3) := by
  refine ⟨rfl, ?_⟩
  intro hcontra
  rw [show parseCost c4resp = some ⟨none, none, .vnum 2⟩ from rfl] at hcontra
  simp [CostRec.total] at hcontra

theorem claim_C4_witness :
    topScan c4amResp = .ok none ∧
    scanGenMessage
      ⟨some (.vobj [("response_metadata",
          .vdict [("usage", .vdict [("cost", .vnum 3)])])]),
        some (.vdict [("usage_metadata", .vdict [("cost", .vnum 2)])])⟩ =
      .ok (some ⟨some (.vnum 0), some (.vnum 0), .vnum 3⟩) ∧
    parseCost c4amResp = some ⟨some (.vnum 0), some (.vnum 0), .vnum 3⟩ :=
  ⟨rfl, rfl,
    (claim_C4_amended c4amResp
      ⟨some (.vobj [("response_metadata",
          .vdict [("usage", .vdict [("cost", .vnum 3)])])]),
        some (.vdict [("usage_metadata", .vdict [("cost", .vnum 2)])])⟩
      [] [] ⟨some (.vnum 0), some (.vnum 0), .vnum 3⟩ rfl rfl).1 rfl⟩

theorem scanGenInfo_dict_hit {g : Gen} {gi u : List (String × Value)} {c : Value}
    (hgi : g.generation_info = some (.vdict gi))
    (hum : List.lookup "usage_metadata" gi = some (.vdict u))
    (hc : List.lookup "cost" u = some c)
    (hnum : c.isNumber = true) (hpos : c.gtZero = true) :
    scanGenInfo g = .ok (some ⟨none, none, c⟩) := by
  simp [scanGenInfo, hgi, truthy_of_lookup hum, Value.mem, Value.index,
    hum, hc, hnum, hpos]

/-- Claim C5: when only a generation entry generation-info carries a usage-metadata dict with a numeric cost strictly greater than 0, the Parser returns a record containing only the total, with no input or output. -/
theorem claim_C5 (r : Response) (g : Gen) (rest : List Gen) (more : List (List Gen))
    (gi u : List (String × Value)) (c : Value)
    (htop : topScan r = .ok none)
    (hg : r.generations = some ((g :: rest) :: more))
    (hmsg : scanGenMessage g = .ok none)
    (hgi : g.generation_info = some (.vdict gi))
    (hum : List.lookup "usage_metadata" gi = some (.vdict u))
    (hc : List.lookup "cost" u = some c)
    (hnum : c.isNumber = true) (hpos : c.gtZero = true) :
    parseCost r = some ⟨none, none, c⟩ :=
  parseCost_gen_hit htop hg
    (scanGen_info_hit hmsg (scanGenInfo_dict_hit hgi hum hc hnum hpos))

theorem claim_C5_witness :
    topScan c5resp = .ok none ∧
    scanGenMessage c5gen = .ok none ∧
    parseCost c5resp = some ⟨none, none, .vnum 4⟩ :=
  ⟨rfl, rfl,
    claim_C5 c5resp c5gen [] []
      [("usage_metadata", .vdict [("cost", .vnum 4)])] [("cost", .vnum 4)] (.vnum 4)
      rfl rfl rfl rfl rfl rfl rfl (by decide)⟩

theorem nonNullField_isSome (u : List (String × Value)) (k : String) :
    (nonNullField u k).isSome = true ↔
      ∃ v, List.lookup k u = some v ∧ v ≠ .vnull := by
  unfold nonNullField
  cases hl : List.lookup k u with
  | none => simp [hl]
  | some v => cases v <;> simp [hl]

/-- Claim C6: the metadata output includes the is-byok flag under its namespaced key exactly when it is present in the top-level usage or token-usage block (any value, including false), includes each of system-fingerprint, service-tier and id exactly when present and non-null there, and never depends on the per-generation data. -/
theorem claim_C6 (r : Response) (u : List (String × Value))
    (hu : topUsageDict r = some u) :
    ((parse_metadata r).openrouter_is_byok = List.lookup "is_byok" u)
    ∧ ((parse_metadata r).openrouter_system_fingerprint.isSome = true ↔
        ∃ v, List.lookup "system_fingerprint" u = some v ∧ v ≠ .vnull)
    ∧ ((parse_metadata r).openrouter_service_tier.isSome = true ↔
        ∃ v, List.lookup "service_tier" u = some v ∧ v ≠ .vnull)
    ∧ ((parse_metadata r).openrouter_id.isSome = true ↔
        ∃ v, List.lookup "id" u = some v ∧ v ≠ .vnull)
    ∧ (∀ gens2 : Option (List (List Gen)),
        parse_metadata ⟨r.llm_output, gens2⟩ = parse_metadata r) := by
  refine ⟨?_, ?_, ?_, ?_, ?_⟩
  · simp [parse_metadata, hu]
  · simp [parse_metadata, hu, nonNullField_isSome]
  · simp [parse_metadata, hu, nonNullField_isSome]
  · simp [parse_metadata, hu, nonNullField_isSome]
  · intro gens2
    rfl

theorem claim_C6_witness :
    topUsageDict c6resp =
      some [("is_byok", Value.vbool false), ("system_fingerprint", Value.vstr "fp_abc")] ∧
    (parse_metadata c6resp).openrouter_is_byok = some (Value.vbool false) ∧
    (parse_metadata c6resp).keyCount = 2 ∧
    ((parse_metadata c6resp).openrouter_system_fingerprint.isSome = true ↔
      ∃ v, List.lookup "system_fingerprint"
        [("is_byok", Value.vbool false), ("system_fingerprint", Value.vstr "fp_abc")] =
          some v ∧ v ≠ .vnull) :=
  ⟨rfl, rfl, rfl,
    (claim_C6 c6resp
      [("is_byok", Value.vbool false), ("system_fingerprint", Value.vstr "fp_abc")]
      rfl).2.1⟩

theorem countLogs_true (rs : List Response) : countLogs true rs = 0 := by
  induction rs with
  | nil => rfl
  | cons r t ih =>
    unfold countLogs parse_cost_from_llm_result
    cases hpb : parseBody r <;> simp [hpb, ih]

/-- Claim C7: any internal failure while inspecting the response is caught and turned into the no-cost answer, and across any sequence of calls on one handler instance the failure is logged at most once. -/
theorem claim_C7 :
    (∀ (flag : Bool) (r : Response) (e : Unit),
      parseBody r = .error e → (parse_cost_from_llm_result flag r).1 = none)
    ∧ (∀ rs : List Response, countLogs false rs ≤ 1) := by
  constructor
  · intro flag r e h
    unfold parse_cost_from_llm_result
    simp [h]
  · intro rs
    induction rs with
    | nil => simp [countLogs]
    | cons r t ih =>
      unfold countLogs parse_cost_from_llm_result
      cases hpb : parseBody r
      · simp [hpb, countLogs_true]
      · simp [hpb, ih]

theorem claim_C7_witness :
    parseBody c7bad = .error () ∧
    (parse_cost_from_llm_result false c7bad).1 = none ∧
    countLogs false [c7bad, c7bad] ≤ 1 :=
  ⟨rfl, claim_C7.1 false c7bad () rfl, claim_C7.2 [c7bad, c7bad]⟩

/-- Claim C9: the error hook never lets an exception reach the caller, and in the fault-free world the observation is updated with the stringified error, the ERROR level and the zeroed cost record, and is then ended. -/
theorem claim_C9 (w : ErrWorld) (errStr : String) (inputs : Option Value) :
    (on_llm_error w errStr inputs).1 = false ∧
    (on_llm_error noFaultErrWorld errStr inputs).2 =
      ⟨some ⟨errStr, "ERROR", inputs, ⟨some (.vnum 0), some (.vnum 0), .vnum 0⟩⟩, true⟩ := by
  constructor
  · unfold on_llm_error
    cases on_llm_error_body w errStr inputs <;> rfl
  · rfl

/-- Claim C8: the success hook never lets an exception reach the caller, and on return the pending-response stash is empty whatever the fault injection did inside the body. -/
theorem claim_C8 (w : EndWorld) (resp : Response) (runId : String) (flag : Bool)
    (s0 : EndState) :
    (on_llm_end w resp runId flag s0).1 = false ∧
    (on_llm_end w resp runId flag s0).2.1.pending = none := by
  unfold on_llm_end
  cases on_llm_end_body w resp flag { s0 with pending := some resp } with
  | ok p => cases p with | mk s f => exact ⟨rfl, rfl⟩
  | error p => cases p with | mk s f => exact ⟨rfl, rfl⟩

end TelemetryDemo
